import Mathlib

/-!
# Verification of the `quickcheck_async` attribute-macro crate

A shallow embedding of `src/lib.rs`.  The crate exposes two procedural
attribute entry points, `tokio` and `async_std`.  Each entry point
validates the annotated function (no pre-existing unit-test marker, must
be declared `async`, no receiver parameter) and then synthesizes a
zero-parameter wrapper test function that nests the original function and
drives it through `quickcheck` with a `futures::executor::block_on`
bridge.  We model the relevant `syn` syntax-tree types by plain Lean
structures, the emitted token stream by a structured `Wrapper` value that
records every interpolated hole of the two `quote!` templates, and
compile-error token streams by a `Diagnostic` value recording the message
and the span it was attached to.
-/

/-- A segment of a `syn::Path`: an identifier, plus whether the segment
carries path arguments (generics).  Mirrors `syn::PathSegment`. -/
structure PathSegment where
  ident : String
  hasArguments : Bool
deriving DecidableEq, Repr

/-- A `syn::Path`: optional leading double colon and a list of segments. -/
structure SynPath where
  leadingColon : Bool
  segments : List PathSegment
deriving DecidableEq, Repr

/-- Mirrors `syn::Path::is_ident`: the path has no leading colon, exactly
one segment, that segment has no path arguments, and its identifier
equals the given name. -/
def SynPath.is_ident (p : SynPath) (name : String) : Bool :=
  !p.leadingColon &&
    match p.segments with
    | [s] => !s.hasArguments && s.ident == name
    | _ => false

/-- An attribute on the annotated function.  Only the path is inspected
by the crate (`attr.path.is_ident("test")`); the rest of the attribute is
opaque token content. -/
structure Attr where
  path : SynPath
  tokens : String
deriving DecidableEq, Repr

/-- A binding pattern (`syn::Pat`), treated as an opaque token string:
the crate only clones and re-interpolates patterns. -/
abbrev Pat := String

/-- A type (`syn::Type`), treated as an opaque token string: the crate
only clones and re-interpolates types.  (Named `Ty` because `Type` is a
Lean keyword.) -/
abbrev Ty := String

/-- A function argument (`syn::FnArg`): either a receiver (`self`-like
binding) or a typed pattern. -/
inductive FnArg where
  | receiver
  | typed (pat : Pat) (ty : Ty)
deriving DecidableEq, Repr

/-- The return type of a signature (`syn::ReturnType`): either the
default (no arrow) or an explicit type. -/
inductive ReturnType where
  | default
  | typed (ty : Ty)
deriving DecidableEq, Repr

/-- The part of `syn::Signature` the crate reads: the optional `async`
qualifier (`Option<Token![async]>`), the function identifier, the
ordered input list, and the output type. -/
structure Signature where
  asyncness : Option Unit
  ident : String
  inputs : List FnArg
  output : ReturnType
deriving DecidableEq, Repr

/-- The annotated function (`syn::ItemFn`): its attribute list, its
signature, and its (otherwise opaque) body block. -/
structure ItemFn where
  attrs : List Attr
  sig : Signature
  body : String
deriving DecidableEq, Repr

/-- A nested meta item of the attribute argument list
(`syn::NestedMeta`), treated as an opaque token string: the crate never
inspects the items, it only re-interpolates them. -/
abbrev NestedMeta := String

/-- The span a compile-error token stream is attached to:
`Error::new_spanned(&fn_item, ..)` spans the whole annotated function;
a failure of `parse_macro_input!(args as AttributeArgs)` is spanned at
the offending argument tokens. -/
inductive Span where
  | wholeFn (f : ItemFn)
  | argTokens
deriving DecidableEq, Repr

/-- A compile-error token stream (`Error::to_compile_error().into()`),
recorded as its message and the span it is attached to. -/
structure Diagnostic where
  span : Span
  msg : String
deriving DecidableEq, Repr

/-- The `Arguments` struct of `src/lib.rs`: parallel punctuated
sequences of binding patterns and declared types. -/
structure Arguments where
  ids : List Pat
  tys : List Ty
deriving DecidableEq, Repr

/-- The loop body of `parse_args`: walk `fn_item.sig.inputs`, fail fast
on a receiver with the diagnostic spanned over the whole function, and
push each typed pattern and its type onto the accumulated sequences. -/
def parse_args_loop (fn_item : ItemFn) :
    List FnArg → Arguments → Except Diagnostic Arguments
  | [], args => .ok args
  | .receiver :: _, _ =>
      .error { span := .wholeFn fn_item, msg := "test fn cannot take a receiver" }
  | .typed p t :: rest, args =>
      parse_args_loop fn_item rest { ids := args.ids ++ [p], tys := args.tys ++ [t] }

/-- `parse_args` of `src/lib.rs`: extract the parallel
(pattern, type) sequences from the annotated function's inputs, failing
on any receiver parameter. -/
def parse_args (fn_item : ItemFn) : Except Diagnostic Arguments :=
  parse_args_loop fn_item fn_item.sig.inputs { ids := [], tys := [] }

/-- The raw token stream handed to the macro as its argument list.
Either `syn` can parse it as `AttributeArgs` (a comma-separated list of
nested meta items) or it rejects the stream with a parse error carrying
some message. -/
inductive ArgTokens where
  | parsed (metas : List NestedMeta)
  | malformed (errMsg : String)
deriving DecidableEq, Repr

/-- Models `parse_macro_input!(args as AttributeArgs)` in both entry
points: a well-formed stream yields its meta items; a malformed stream
makes the macro return the parse error as a compile error, spanned at
the argument tokens. -/
def parse_attribute_args : ArgTokens → Except Diagnostic (List NestedMeta)
  | .parsed metas => .ok metas
  | .malformed m => .error { span := .argTokens, msg := m }

/-- The identifier the duplicate-marker guard scans for. -/
def testIdent : String := "test"

/-- The attribute scan shared by both entry points:
`for attr in &fn_item.attrs { if attr.path.is_ident("test") .. }`. -/
def find_test_attr (attrs : List Attr) : Bool :=
  attrs.any fun a => a.path.is_ident testIdent

/-- The path of the marker emitted by the `tokio` entry point:
`::tokio::test`. -/
def tokioTestPath : SynPath :=
  { leadingColon := true,
    segments := [{ ident := "tokio", hasArguments := false },
                 { ident := "test", hasArguments := false }] }

/-- The path of the marker emitted by the `async_std` entry point:
`::async_std::test`. -/
def asyncStdTestPath : SynPath :=
  { leadingColon := true,
    segments := [{ ident := "async_std", hasArguments := false },
                 { ident := "test", hasArguments := false }] }

/-- The runtime-agnostic blocking-completion facility both templates
use inside the bridging closure: `::futures::executor::block_on`. -/
def blockOnPath : SynPath :=
  { leadingColon := true,
    segments := [{ ident := "futures", hasArguments := false },
                 { ident := "executor", hasArguments := false },
                 { ident := "block_on", hasArguments := false }] }

/-- The bridging function value emitted inside the wrapper body:
`let test_fn: fn(#tys) #ret = |#ids| { ::futures::executor::block_on(#call_by(#ids)) };`.
Each field records one interpolated hole of that line. -/
structure BridgeClosure where
  paramTys : List Ty
  ret : ReturnType
  paramPats : List Pat
  driver : SynPath
  callee : String
  callArgs : List Pat
deriving DecidableEq, Repr

/-- How the emitted wrapper hands `test_fn` to the quickcheck engine.
`spawnBlockingAwaitUnwrap` is the tokio template's
`::tokio::task::spawn_blocking(move || ::quickcheck::quickcheck(test_fn)).await.unwrap()`:
a dedicated background worker, awaited, with the worker's panic
unwrapped into the test's own failure.  `inlineQuickcheck` is the
async_std template's plain `::quickcheck::quickcheck(test_fn);` call,
with no worker and no suspension introduced by the wrapper. -/
inductive EngineInvocation where
  | spawnBlockingAwaitUnwrap
  | inlineQuickcheck
deriving DecidableEq, Repr

/-- The synthesized wrapper, one field per hole (or fixed shape) of the
`quote!` templates: the executor marker `#[<markerPath>(#attrib)]`, the
declaration `async fn #call_by()` (zero parameters), the original
function nested verbatim, the bridging closure, and the engine
invocation. -/
structure Wrapper where
  markerPath : SynPath
  markerArgs : List NestedMeta
  isAsync : Bool
  name : String
  params : List FnArg
  nested : ItemFn
  bridge : BridgeClosure
  invocation : EngineInvocation
deriving DecidableEq, Repr

/-- The `tokio` entry point of `src/lib.rs`: scan for a pre-existing
`test` attribute, require `async`, parse the attribute arguments,
extract the (pattern, type) sequences, and emit the wrapper decorated
with `#[::tokio::test(#attrib)]` whose body spawn-blocks the quickcheck
run and awaits and unwraps it. -/
def tokio (args : ArgTokens) (item : ItemFn) : Except Diagnostic Wrapper :=
  let fn_item := item
  if find_test_attr fn_item.attrs then
    .error { span := .wholeFn fn_item, msg := "multiple #[test] attributes were supplied" }
  else if fn_item.sig.asyncness.isNone then
    .error { span := .wholeFn fn_item, msg := "test fn must be async" }
  else
    match parse_attribute_args args with
    | .error e => .error e
    | .ok attrib =>
      let call_by := fn_item.sig.ident
      match parse_args fn_item with
      | .error e => .error e
      | .ok a =>
        let ret := fn_item.sig.output
        .ok { markerPath := tokioTestPath
              markerArgs := attrib
              isAsync := true
              name := call_by
              params := []
              nested := fn_item
              bridge := { paramTys := a.tys
                          ret := ret
                          paramPats := a.ids
                          driver := blockOnPath
                          callee := call_by
                          callArgs := a.ids }
              invocation := .spawnBlockingAwaitUnwrap }

/-- The `async_std` entry point of `src/lib.rs`: the same guards and
extraction as `tokio`, emitting the wrapper decorated with
`#[::async_std::test(#attrib)]` whose body calls quickcheck inline. -/
def async_std (args : ArgTokens) (item : ItemFn) : Except Diagnostic Wrapper :=
  let fn_item := item
  if find_test_attr fn_item.attrs then
    .error { span := .wholeFn fn_item, msg := "multiple #[test] attributes were supplied" }
  else if fn_item.sig.asyncness.isNone then
    .error { span := .wholeFn fn_item, msg := "test fn must be async" }
  else
    match parse_attribute_args args with
    | .error e => .error e
    | .ok attrib =>
      let call_by := fn_item.sig.ident
      match parse_args fn_item with
      | .error e => .error e
      | .ok a =>
        let ret := fn_item.sig.output
        .ok { markerPath := asyncStdTestPath
              markerArgs := attrib
              isAsync := true
              name := call_by
              params := []
              nested := fn_item
              bridge := { paramTys := a.tys
                          ret := ret
                          paramPats := a.ids
                          driver := blockOnPath
                          callee := call_by
                          callArgs := a.ids }
              invocation := .inlineQuickcheck }

/-- The typed binding patterns of an input list, in declaration order
(the pattern sequence `parse_args` extracts when no receiver occurs). -/
def typed_pats : List FnArg → List Pat
  | [] => []
  | .receiver :: rest => typed_pats rest
  | .typed p _ :: rest => p :: typed_pats rest

/-- The declared types of an input list, in declaration order
(the type sequence `parse_args` extracts when no receiver occurs). -/
def typed_tys : List FnArg → List Ty
  | [] => []
  | .receiver :: rest => typed_tys rest
  | .typed _ t :: rest => t :: typed_tys rest

/-- Whether the annotated function's parameter list contains a receiver
parameter. -/
def has_receiver (f : ItemFn) : Bool :=
  f.sig.inputs.any fun a =>
    match a with
    | .receiver => true
    | .typed _ _ => false

/-- The diagnostic (if any) of a synthesis result. -/
def diagOf : Except Diagnostic Wrapper → Option Diagnostic
  | .error d => some d
  | .ok _ => none

/-- The executor-independent core of a wrapper: everything except the
executor-specific marker path and the engine-invocation strategy. -/
structure WrapperCore where
  markerArgs : List NestedMeta
  isAsync : Bool
  name : String
  params : List FnArg
  nested : ItemFn
  bridge : BridgeClosure
deriving DecidableEq, Repr

/-- Project a wrapper to its executor-independent core. -/
def Wrapper.core (w : Wrapper) : WrapperCore :=
  { markerArgs := w.markerArgs
    isAsync := w.isAsync
    name := w.name
    params := w.params
    nested := w.nested
    bridge := w.bridge }

/-- How the attribute is invoked at the call site: bare
(`#[quickcheck_async::tokio]`) or with a parenthesized argument list
(`#[quickcheck_async::tokio(..)]`). -/
inductive Invocation where
  | noArgs
  | withArgs (ts : ArgTokens)
deriving DecidableEq, Repr

/-- The argument token stream the compiler hands the macro for an
invocation: a bare invocation receives the empty stream, which
`AttributeArgs` parsing turns into the empty meta list. -/
def Invocation.toArgTokens : Invocation → ArgTokens
  | .noArgs => .parsed []
  | .withArgs ts => ts

/-- The `tokio` entry point as invoked at a call site. -/
def tokio_expand (inv : Invocation) (item : ItemFn) : Except Diagnostic Wrapper :=
  tokio inv.toArgTokens item

/-- The `async_std` entry point as invoked at a call site. -/
def async_std_expand (inv : Invocation) (item : ItemFn) : Except Diagnostic Wrapper :=
  async_std inv.toArgTokens item

/-- A concrete valid annotated function: `async fn prop(x: u8) -> bool`. -/
def exValid : ItemFn :=
  { attrs := []
    sig := { asyncness := some ()
             ident := "prop"
             inputs := [.typed "x" "u8"]
             output := .typed "bool" }
    body := "x != 0" }

/-- A plain `test` marker attribute, as in `#[test]`. -/
def testAttr : Attr :=
  { path := { leadingColon := false,
              segments := [{ ident := "test", hasArguments := false }] }
    tokens := "" }

/-- A concrete async function taking a receiver:
`async fn method(self, x: u8) -> bool`. -/
def exRecv : ItemFn :=
  { attrs := []
    sig := { asyncness := some ()
             ident := "method"
             inputs := [.receiver, .typed "x" "u8"]
             output := .typed "bool" }
    body := "true" }

/-- A concrete non-async function already carrying `#[test]`:
`#[test] fn plain()`. -/
def exC3 : ItemFn :=
  { attrs := [testAttr]
    sig := { asyncness := none
             ident := "plain"
             inputs := []
             output := .default }
    body := "" }

/-- A concrete non-async function with a receiver and no `test`
attribute: `fn method2(self)`. -/
def exC10 : ItemFn :=
  { attrs := []
    sig := { asyncness := none
             ident := "method2"
             inputs := [.receiver]
             output := .default }
    body := "" }

/-- A concrete non-async function with no attributes and no receiver:
`fn sync_prop()`. -/
def exSync : ItemFn :=
  { attrs := []
    sig := { asyncness := none
             ident := "sync_prop"
             inputs := []
             output := .default }
    body := "" }

/-- The receiver test used by `has_receiver`, as a standalone
predicate on one argument. -/
def is_receiver_arg : FnArg → Bool
  | .receiver => true
  | .typed _ _ => false

theorem has_receiver_eq (f : ItemFn) :
    has_receiver f = f.sig.inputs.any is_receiver_arg := by
  unfold has_receiver is_receiver_arg
  rfl

theorem typed_pats_length_eq_tys (l : List FnArg) :
    (typed_pats l).length = (typed_tys l).length := by
  induction l with
  | nil => rfl
  | cons a rest ih =>
    cases a with
    | receiver => simpa [typed_pats, typed_tys] using ih
    | typed p t => simpa [typed_pats, typed_tys] using ih

theorem typed_pats_length_of_no_receiver (l : List FnArg) :
    l.any is_receiver_arg = false → (typed_pats l).length = l.length := by
  induction l with
  | nil => intro _; rfl
  | cons a rest ih =>
    intro h
    cases a with
    | receiver => simp [is_receiver_arg] at h
    | typed p t =>
      simp only [List.any_cons, is_receiver_arg, Bool.false_or] at h
      simp [typed_pats, ih h]

theorem parse_args_loop_receiver (f : ItemFn) (l : List FnArg) :
    ∀ acc : Arguments, l.any is_receiver_arg = true →
      parse_args_loop f l acc =
        .error { span := .wholeFn f, msg := "test fn cannot take a receiver" } := by
  induction l with
  | nil => intro acc h; simp at h
  | cons a rest ih =>
    intro acc h
    cases a with
    | receiver => rfl
    | typed p t =>
      simp only [List.any_cons, is_receiver_arg, Bool.false_or] at h
      exact ih _ h

theorem parse_args_loop_ok (f : ItemFn) (l : List FnArg) :
    ∀ acc : Arguments, l.any is_receiver_arg = false →
      parse_args_loop f l acc =
        .ok { ids := acc.ids ++ typed_pats l, tys := acc.tys ++ typed_tys l } := by
  induction l with
  | nil => intro acc _; simp [parse_args_loop, typed_pats, typed_tys]
  | cons a rest ih =>
    intro acc h
    cases a with
    | receiver => simp [is_receiver_arg] at h
    | typed p t =>
      simp only [List.any_cons, is_receiver_arg, Bool.false_or] at h
      rw [parse_args_loop, ih _ h]
      simp [typed_pats, typed_tys]

/-- When the annotated function has a receiver parameter, `parse_args`
fails fast with the receiver diagnostic spanned over the whole
function. -/
theorem parse_args_receiver (f : ItemFn) (h : has_receiver f = true) :
    parse_args f =
      .error { span := .wholeFn f, msg := "test fn cannot take a receiver" } := by
  rw [has_receiver_eq] at h
  exact parse_args_loop_receiver f f.sig.inputs _ h
/-- When the annotated function has no receiver parameter, `parse_args`
returns exactly the typed patterns and types, in declaration order. -/
theorem parse_args_ok (f : ItemFn) (h : has_receiver f = false) :
    parse_args f =
      .ok { ids := typed_pats f.sig.inputs, tys := typed_tys f.sig.inputs } := by
  rw [has_receiver_eq] at h
  simpa using parse_args_loop_ok f f.sig.inputs { ids := [], tys := [] } h

/-- Successful expansion of the `tokio` entry point: with no conflicting
marker, an async signature, well-formed attribute arguments and no
receiver, the emitted wrapper is exactly the filled-in tokio template. -/
theorem tokio_success (f : ItemFn) (metas : List NestedMeta)
    (h1 : find_test_attr f.attrs = false) (h2 : f.sig.asyncness = some ())
    (h3 : has_receiver f = false) :
    tokio (.parsed metas) f =
      .ok { markerPath := tokioTestPath
            markerArgs := metas
            isAsync := true
            name := f.sig.ident
            params := []
            nested := f
            bridge := { paramTys := typed_tys f.sig.inputs
                        ret := f.sig.output
                        paramPats := typed_pats f.sig.inputs
                        driver := blockOnPath
                        callee := f.sig.ident
                        callArgs := typed_pats f.sig.inputs }
            invocation := .spawnBlockingAwaitUnwrap } := by
  simp [tokio, h1, h2, parse_attribute_args, parse_args_ok f h3]

/-- Successful expansion of the `async_std` entry point: the filled-in
async_std template. -/
theorem async_std_success (f : ItemFn) (metas : List NestedMeta)
    (h1 : find_test_attr f.attrs = false) (h2 : f.sig.asyncness = some ())
    (h3 : has_receiver f = false) :
    async_std (.parsed metas) f =
      .ok { markerPath := asyncStdTestPath
            markerArgs := metas
            isAsync := true
            name := f.sig.ident
            params := []
            nested := f
            bridge := { paramTys := typed_tys f.sig.inputs
                        ret := f.sig.output
                        paramPats := typed_pats f.sig.inputs
                        driver := blockOnPath
                        callee := f.sig.ident
                        callArgs := typed_pats f.sig.inputs }
            invocation := .inlineQuickcheck } := by
  simp [async_std, h1, h2, parse_attribute_args, parse_args_ok f h3]

/-- C1: for every annotated function that passes the guard checks (no
pre-existing `test` marker, declared async) and whose parameter list
contains a receiver parameter, both entry points fail synthesis with
exactly the diagnostic "test fn cannot take a receiver" attached to the
whole function's span, producing no wrapper and no partial parameter
sequence. -/
theorem claim_C1_receiver_rejected (f : ItemFn) (metas : List NestedMeta)
    (h1 : find_test_attr f.attrs = false) (h2 : f.sig.asyncness = some ())
    (hr : has_receiver f = true) :
    tokio (.parsed metas) f =
      .error { span := .wholeFn f, msg := "test fn cannot take a receiver" } ∧
    async_std (.parsed metas) f =
      .error { span := .wholeFn f, msg := "test fn cannot take a receiver" } := by
  constructor <;>
    simp [tokio, async_std, h1, h2, parse_attribute_args, parse_args_receiver f hr]

/-- Witness for C1 at the concrete receiver-taking function `exRecv`. -/
theorem claim_C1_witness :
    tokio (.parsed []) exRecv =
      .error { span := .wholeFn exRecv, msg := "test fn cannot take a receiver" } ∧
    async_std (.parsed []) exRecv =
      .error { span := .wholeFn exRecv, msg := "test fn cannot take a receiver" } :=
  claim_C1_receiver_rejected exRecv [] rfl rfl rfl

/-- C2: for every annotated function whose attribute list contains an
attribute whose path resolves to the identifier "test", both entry
points fail synthesis with exactly "multiple #[test] attributes were
supplied", spanned over the whole function, and emit no wrapper —
regardless of the supplied argument tokens, since this check runs
first. -/
theorem claim_C2_duplicate_marker_rejected (f : ItemFn) (args : ArgTokens)
    (h : find_test_attr f.attrs = true) :
    tokio args f =
      .error { span := .wholeFn f, msg := "multiple #[test] attributes were supplied" } ∧
    async_std args f =
      .error { span := .wholeFn f, msg := "multiple #[test] attributes were supplied" } := by
  constructor <;> simp [tokio, async_std, h]

/-- Witness for C2 at the concrete `#[test]`-carrying function `exC3`. -/
theorem claim_C2_witness :
    tokio (.parsed []) exC3 =
      .error { span := .wholeFn exC3, msg := "multiple #[test] attributes were supplied" } ∧
    async_std (.parsed []) exC3 =
      .error { span := .wholeFn exC3, msg := "multiple #[test] attributes were supplied" } :=
  claim_C2_duplicate_marker_rejected exC3 (.parsed []) (by decide)

/-- C3 (counterexample): the claim "every non-async function fails with
exactly the diagnostic `test fn must be async`" is false as stated: the
concrete non-async function `exC3` also carries a `#[test]` attribute,
and both entry points report "multiple #[test] attributes were
supplied" instead, because the duplicate-marker check runs first. -/
theorem claim_C3_counterexample :
    exC3.sig.asyncness = none ∧
    diagOf (tokio (.parsed []) exC3) =
      some { span := .wholeFn exC3, msg := "multiple #[test] attributes were supplied" } ∧
    diagOf (async_std (.parsed []) exC3) =
      some { span := .wholeFn exC3, msg := "multiple #[test] attributes were supplied" } ∧
    diagOf (tokio (.parsed []) exC3) ≠
      some { span := .wholeFn exC3, msg := "test fn must be async" } ∧
    diagOf (async_std (.parsed []) exC3) ≠
      some { span := .wholeFn exC3, msg := "test fn must be async" } := by
  decide

/-- C3 (amended): for every annotated function whose signature lacks the
async qualifier and whose attribute list carries no pre-existing `test`
marker, both entry points fail synthesis with exactly "test fn must be
async", spanned over the whole function, and emit no wrapper. -/
theorem claim_C3_not_async_rejected (f : ItemFn) (args : ArgTokens)
    (h1 : find_test_attr f.attrs = false) (h2 : f.sig.asyncness = none) :
    tokio args f = .error { span := .wholeFn f, msg := "test fn must be async" } ∧
    async_std args f = .error { span := .wholeFn f, msg := "test fn must be async" } := by
  constructor <;> simp [tokio, async_std, h1, h2]

/-- Witness for the amended C3 at the concrete synchronous function
`exSync`. -/
theorem claim_C3_witness :
    tokio (.parsed []) exSync =
      .error { span := .wholeFn exSync, msg := "test fn must be async" } ∧
    async_std (.parsed []) exSync =
      .error { span := .wholeFn exSync, msg := "test fn must be async" } :=
  claim_C3_not_async_rejected exSync (.parsed []) rfl rfl

/-- C4: for every valid annotated function (async, no receiver, no
pre-existing `test` marker), both entry points succeed and the bridging
closure binds exactly the original typed patterns and declared types,
in declaration order with no deduplication or renaming; the two
sequences have equal length, equal to the original arity, and the
closure's return type is the original output type.  The async_std
wrapper's bridge is identical. -/
theorem claim_C4_bridge_matches_signature (f : ItemFn) (metas : List NestedMeta)
    (h1 : find_test_attr f.attrs = false) (h2 : f.sig.asyncness = some ())
    (h3 : has_receiver f = false) :
    ∃ w1 w2, tokio (.parsed metas) f = .ok w1 ∧
      async_std (.parsed metas) f = .ok w2 ∧
      w1.bridge.paramPats = typed_pats f.sig.inputs ∧
      w1.bridge.paramTys = typed_tys f.sig.inputs ∧
      w1.bridge.paramPats.length = w1.bridge.paramTys.length ∧
      w1.bridge.paramPats.length = f.sig.inputs.length ∧
      w1.bridge.ret = f.sig.output ∧
      w1.bridge.callArgs = w1.bridge.paramPats ∧
      w2.bridge = w1.bridge := by
  refine ⟨_, _, tokio_success f metas h1 h2 h3, async_std_success f metas h1 h2 h3,
    rfl, rfl, typed_pats_length_eq_tys f.sig.inputs, ?_, rfl, rfl, rfl⟩
  rw [has_receiver_eq] at h3
  exact typed_pats_length_of_no_receiver f.sig.inputs h3

/-- Witness for C4 at the concrete valid function `exValid`. -/
theorem claim_C4_witness :
    ∃ w1 w2, tokio (.parsed []) exValid = .ok w1 ∧
      async_std (.parsed []) exValid = .ok w2 ∧
      w1.bridge.paramPats = typed_pats exValid.sig.inputs ∧
      w1.bridge.paramTys = typed_tys exValid.sig.inputs ∧
      w1.bridge.paramPats.length = w1.bridge.paramTys.length ∧
      w1.bridge.paramPats.length = exValid.sig.inputs.length ∧
      w1.bridge.ret = exValid.sig.output ∧
      w1.bridge.callArgs = w1.bridge.paramPats ∧
      w2.bridge = w1.bridge :=
  claim_C4_bridge_matches_signature exValid [] rfl rfl rfl

/-- C5: for every annotated function accepted by the guards and every
well-formed attribute argument list, the emitted wrapper's
executor-specific test-registration marker carries exactly that list,
unaltered and in order, in both entry points. -/
theorem claim_C5_marker_args_passthrough (f : ItemFn) (metas : List NestedMeta)
    (h1 : find_test_attr f.attrs = false) (h2 : f.sig.asyncness = some ())
    (h3 : has_receiver f = false) :
    Except.map Wrapper.markerArgs (tokio (.parsed metas) f) = .ok metas ∧
    Except.map Wrapper.markerArgs (async_std (.parsed metas) f) = .ok metas := by
  rw [tokio_success f metas h1 h2 h3, async_std_success f metas h1 h2 h3]
  exact ⟨rfl, rfl⟩

/-- Witness for C5 at `exValid` with a concrete two-option list. -/
theorem claim_C5_witness :
    Except.map Wrapper.markerArgs
        (tokio (.parsed ["core_threads = 3", "max_threads = 4"]) exValid) =
      .ok ["core_threads = 3", "max_threads = 4"] ∧
    Except.map Wrapper.markerArgs
        (async_std (.parsed ["core_threads = 3", "max_threads = 4"]) exValid) =
      .ok ["core_threads = 3", "max_threads = 4"] :=
  claim_C5_marker_args_passthrough exValid ["core_threads = 3", "max_threads = 4"]
    rfl rfl rfl

/-- C6 (counterexample): the claim that any error in the configuration,
including malformed tokens, is never diagnosed by this system is false:
on the concrete valid function `exValid`, an argument token stream that
`AttributeArgs` parsing rejects makes both entry points themselves
return the parse error as a compile error. -/
theorem claim_C6_counterexample :
    diagOf (tokio (ArgTokens.malformed "expected literal") exValid) =
      some { span := .argTokens, msg := "expected literal" } ∧
    diagOf (async_std (ArgTokens.malformed "expected literal") exValid) =
      some { span := .argTokens, msg := "expected literal" } := by
  decide

/-- C6 (amended): for every syntactically well-formed argument list, the
entry points perform no validation of its content — whether synthesis
succeeds, and which diagnostic is produced if it fails, is independent
of the supplied meta items, so unknown options or wrongly typed values
are deferred to the downstream executor's marker. -/
theorem claim_C6_no_config_validation (f : ItemFn) (metas metas' : List NestedMeta) :
    diagOf (tokio (.parsed metas) f) = diagOf (tokio (.parsed metas') f) ∧
    diagOf (async_std (.parsed metas) f) = diagOf (async_std (.parsed metas') f) := by
  constructor <;>
    cases hA : find_test_attr f.attrs <;>
      cases hB : f.sig.asyncness <;>
        cases hP : parse_args f <;>
          simp [tokio, async_std, diagOf, parse_attribute_args, hA, hB, hP]

/-- C7: for every valid annotated function, invoking either entry point
with an empty parenthesized configuration argument list expands to
exactly the same output as invoking it bare, with no attribute
arguments at all. -/
theorem claim_C7_empty_args_eq_no_args (f : ItemFn)
    (_h1 : find_test_attr f.attrs = false) (_h2 : f.sig.asyncness = some ())
    (_h3 : has_receiver f = false) :
    tokio_expand (.withArgs (.parsed [])) f = tokio_expand .noArgs f ∧
    async_std_expand (.withArgs (.parsed [])) f = async_std_expand .noArgs f :=
  ⟨rfl, rfl⟩

/-- Witness for C7 at the concrete valid function `exValid`. -/
theorem claim_C7_witness :
    tokio_expand (.withArgs (.parsed [])) exValid = tokio_expand .noArgs exValid ∧
    async_std_expand (.withArgs (.parsed [])) exValid =
      async_std_expand .noArgs exValid :=
  claim_C7_empty_args_eq_no_args exValid rfl rfl rfl

/-- C8: for every valid annotated function, both flavors emit a
zero-parameter async test function with the original identifier that
nests the original function unchanged and bridges it through the
runtime-agnostic `::futures::executor::block_on` driver; the tokio
flavor hands the bridge to quickcheck on a spawned blocking worker,
awaited and unwrapped, while the async_std flavor calls quickcheck
inline with no worker. -/
theorem claim_C8_wrapper_shape (f : ItemFn) (metas : List NestedMeta)
    (h1 : find_test_attr f.attrs = false) (h2 : f.sig.asyncness = some ())
    (h3 : has_receiver f = false) :
    ∃ w1 w2, tokio (.parsed metas) f = .ok w1 ∧
      async_std (.parsed metas) f = .ok w2 ∧
      w1.params = [] ∧ w1.isAsync = true ∧ w1.name = f.sig.ident ∧
      w1.nested = f ∧ w1.bridge.driver = blockOnPath ∧
      w1.bridge.callee = f.sig.ident ∧
      w1.invocation = .spawnBlockingAwaitUnwrap ∧
      w2.params = [] ∧ w2.isAsync = true ∧ w2.name = f.sig.ident ∧
      w2.nested = f ∧ w2.bridge.driver = blockOnPath ∧
      w2.bridge.callee = f.sig.ident ∧
      w2.invocation = .inlineQuickcheck :=
  ⟨_, _, tokio_success f metas h1 h2 h3, async_std_success f metas h1 h2 h3,
    rfl, rfl, rfl, rfl, rfl, rfl, rfl, rfl, rfl, rfl, rfl, rfl, rfl, rfl⟩

/-- Witness for C8 at the concrete valid function `exValid`. -/
theorem claim_C8_witness :
    ∃ w1 w2, tokio (.parsed []) exValid = .ok w1 ∧
      async_std (.parsed []) exValid = .ok w2 ∧
      w1.params = [] ∧ w1.isAsync = true ∧ w1.name = exValid.sig.ident ∧
      w1.nested = exValid ∧ w1.bridge.driver = blockOnPath ∧
      w1.bridge.callee = exValid.sig.ident ∧
      w1.invocation = .spawnBlockingAwaitUnwrap ∧
      w2.params = [] ∧ w2.isAsync = true ∧ w2.name = exValid.sig.ident ∧
      w2.nested = exValid ∧ w2.bridge.driver = blockOnPath ∧
      w2.bridge.callee = exValid.sig.ident ∧
      w2.invocation = .inlineQuickcheck :=
  claim_C8_wrapper_shape exValid [] rfl rfl rfl

/-- C9: the two entry points are equivalent except for executor glue:
on every input they accept or reject together, produce identical
diagnostics on rejection, and on success their wrappers agree on the
entire executor-independent core, differing only in the marker path
(`::tokio::test` versus `::async_std::test`) and the engine-invocation
strategy (background-worker-and-join versus inline call). -/
theorem claim_C9_entry_points_equivalent (args : ArgTokens) (f : ItemFn) :
    (tokio args f).isOk = (async_std args f).isOk ∧
    diagOf (tokio args f) = diagOf (async_std args f) ∧
    Except.map Wrapper.core (tokio args f) =
      Except.map Wrapper.core (async_std args f) ∧
    Except.map Wrapper.markerPath (tokio args f) =
      Except.map (fun _ => tokioTestPath) (tokio args f) ∧
    Except.map Wrapper.markerPath (async_std args f) =
      Except.map (fun _ => asyncStdTestPath) (async_std args f) ∧
    Except.map Wrapper.invocation (tokio args f) =
      Except.map (fun _ => EngineInvocation.spawnBlockingAwaitUnwrap) (tokio args f) ∧
    Except.map Wrapper.invocation (async_std args f) =
      Except.map (fun _ => EngineInvocation.inlineQuickcheck) (async_std args f) := by
  cases hA : find_test_attr f.attrs <;>
    cases hB : f.sig.asyncness <;>
      cases args <;>
        cases hP : parse_args f <;>
          simp [tokio, async_std, diagOf, Wrapper.core, parse_attribute_args,
            Except.map, Except.isOk, Except.toBool, hA, hB, hP]

/-- C10: the guard checks run in a fixed order in both entry points,
with the must-be-async check before the receiver check: every non-async
function that takes a receiver parameter and carries no `test`-marker
attribute is reported as "test fn must be async", not "test fn cannot
take a receiver", whatever the argument tokens. -/
theorem claim_C10_check_order (f : ItemFn) (args : ArgTokens)
    (h1 : find_test_attr f.attrs = false) (h2 : f.sig.asyncness = none)
    (_h3 : has_receiver f = true) :
    tokio args f = .error { span := .wholeFn f, msg := "test fn must be async" } ∧
    async_std args f = .error { span := .wholeFn f, msg := "test fn must be async" } := by
  constructor <;> simp [tokio, async_std, h1, h2]

/-- Witness for C10 at the concrete non-async receiver-taking function
`exC10`. -/
theorem claim_C10_witness :
    tokio (.parsed []) exC10 =
      .error { span := .wholeFn exC10, msg := "test fn must be async" } ∧
    async_std (.parsed []) exC10 =
      .error { span := .wholeFn exC10, msg := "test fn must be async" } :=
  claim_C10_check_order exC10 (.parsed []) rfl rfl rfl
